import Mathlib

/-!
Verification of the metacrm permission cache, invalidation hooks and outbox
delivery state machine, as implemented in the SQL migrations
(cache schema in the FLS/OLS migration, `security`, `cluster` and
`bootstrap.outbox` in migrations 000003/000004/000006).

Shallow embedding conventions:
* timestamps (`timestamptz`) are natural numbers (seconds);
* bitmasks (`INTEGER` permission columns) are natural numbers, combined with
  `Nat.lor` (SQL `bit_or`) and `Nat.land` (SQL `&`);
* each SQL table is a `List` of row structures; `SELECT ... INTO` of a
  primary-key lookup is `List.find?`; `DELETE ... WHERE p` is
  `List.filter (not p)`; `INSERT ... ON CONFLICT DO UPDATE` replaces the row
  with the same primary key;
* plpgsql functions become pure Lean functions threading the database state
  explicitly, with `now()` passed as an argument.
-/

namespace MetaCRM

/-- Timestamps (`timestamptz`) in seconds. -/
abbrev Time := Nat

/-- Permission bitmasks (1=READ, 2=UPDATE, 4=CREATE, 8=DELETE at object level,
1=READ, 2=WRITE at field level). -/
abbrev Mask := Nat

/-- A row of `cluster.group_member`: edge from a group to either a user member
or a nested group member, soft-deletable via `deleted_at`. -/
structure GroupMemberRow where
  tenant_id : Nat
  group_id : Nat
  member_user_id : Option Nat
  member_group_id : Option Nat
  deleted_at : Option Time
deriving DecidableEq

/-- A row of `cache.group_object_permissions` (group-level permission cache). -/
structure GroupObjectPermRow where
  tenant_id : Nat
  group_id : Nat
  object_id : Nat
  base_permissions : Mask
  cached_at : Time
  expires_at : Time
deriving DecidableEq

/-- A row of `cache.user_object_permissions` (object-level permission cache). -/
structure UserObjectPermRow where
  tenant_id : Nat
  user_id : Nat
  object_id : Nat
  base_permissions : Mask
  cached_at : Time
  expires_at : Time
deriving DecidableEq

/-- A row of `cache.user_field_restrictions` (field-level restriction cache). -/
structure UserFieldRestrictionRow where
  tenant_id : Nat
  user_id : Nat
  object_id : Nat
  field_id : Nat
  restriction : Mask
  cached_at : Time
  expires_at : Time
deriving DecidableEq

/-- A row of `cache.user_row_permissions` (row-level permission cache). -/
structure UserRowPermRow where
  tenant_id : Nat
  user_id : Nat
  object_id : Nat
  row_id : Nat
  permissions : Mask
  cached_at : Time
  expires_at : Time
deriving DecidableEq

/-- A row of `security.permission_set` (the columns relevant to grants and the
`ux_permission_set_api_name_alive` index). -/
structure PermissionSetRow where
  id : Nat
  tenant_id : Nat
  group_id : Option Nat
  api_name : String
  deleted_at : Option Time
deriving DecidableEq

/-- A row of `security.object_permissions`: (permission set, object) to
bitmask. -/
structure ObjectPermissionRow where
  tenant_id : Nat
  permission_set_id : Nat
  object_id : Nat
  permissions : Mask
deriving DecidableEq

/-- Delivery status of a `bootstrap.outbox` row
(`bootstrap.outbox_status` enum). -/
inductive OutboxStatus where
  | pending
  | processing
  | done
  | dead
deriving DecidableEq

/-- A row of `bootstrap.outbox`. Worker ids (`locked_by TEXT`) are numbered. -/
structure OutboxRow where
  id : Nat
  aggregate_type : String
  aggregate_id : Nat
  event_type : String
  headers_tenant_id : Option Nat
  status : OutboxStatus
  attempt : Nat
  next_attempt_at : Time
  locked_by : Option Nat
  locked_at : Option Time
  created_at : Time
  published_at : Option Time
deriving DecidableEq

/-- The database state visible to the cache read path and invalidation hooks. -/
structure DB where
  group_member : List GroupMemberRow
  group_object_permissions : List GroupObjectPermRow
  user_object_permissions : List UserObjectPermRow
  user_field_restrictions : List UserFieldRestrictionRow
  user_row_permissions : List UserRowPermRow
  permission_set : List PermissionSetRow
  object_permissions : List ObjectPermissionRow
  outbox : List OutboxRow
deriving DecidableEq

/-- Active direct user memberships of a principal: the rows of
`cluster.group_member` with `member_user_id = p_user_id` and
`deleted_at IS NULL` for the tenant (the `gm` side of the join in
`cache.get_object_permissions`). -/
def directActiveMemberships (s : DB) (tid uid : Nat) : List GroupMemberRow :=
  s.group_member.filter fun gm =>
    decide (gm.tenant_id = tid ∧ gm.member_user_id = some uid ∧ gm.deleted_at = none)

/-- Live group-cache entries for a group and object: the `gop` side of the join
in `cache.get_object_permissions` (`expires_at > now()`). -/
def liveGroupEntries (s : DB) (now : Time) (tid gid oid : Nat) :
    List GroupObjectPermRow :=
  s.group_object_permissions.filter fun gop =>
    decide (gop.tenant_id = tid ∧ gop.group_id = gid ∧ gop.object_id = oid ∧
      now < gop.expires_at)

/-- The `SELECT COALESCE(bit_or(gop.base_permissions), 0)` of
`cache.get_object_permissions`: bitwise OR of the live group-cache entries for
the object over the principal's active direct memberships. -/
def computeObjectPermissions (s : DB) (now : Time) (tid uid oid : Nat) : Mask :=
  ((directActiveMemberships s tid uid).flatMap fun gm =>
    (liveGroupEntries s now tid gm.group_id oid).map
      (fun gop => gop.base_permissions)).foldr (fun x y => x ||| y) 0

/-- The cache lookup of `cache.get_object_permissions`
(`SELECT base_permissions ... WHERE ... AND expires_at > now()`). -/
def lookupUserObjectPerm (s : DB) (now : Time) (tid uid oid : Nat) :
    Option UserObjectPermRow :=
  s.user_object_permissions.find? fun r =>
    decide (r.tenant_id = tid ∧ r.user_id = uid ∧ r.object_id = oid ∧
      now < r.expires_at)

/-- Embedding of `INSERT ... ON CONFLICT (tenant_id, user_id, object_id) DO
UPDATE`: replace the row with the same primary key, keep all others. -/
def upsertUserObjectPerm (rows : List UserObjectPermRow)
    (r : UserObjectPermRow) : List UserObjectPermRow :=
  r :: rows.filter fun x =>
    !(decide (x.tenant_id = r.tenant_id ∧ x.user_id = r.user_id ∧
      x.object_id = r.object_id))

/-- Embedding of `cache.get_object_permissions(p_tenant_id, p_user_id,
p_object_id, p_ttl_seconds)`: return the live cached mask if present;
otherwise compute from group memberships and the group cache, return `0`
without caching when the computed mask is zero, and otherwise write-through
with `expires_at = now() + ttl` and return the computed mask. -/
def get_object_permissions (s : DB) (now : Time) (tid uid oid : Nat)
    (ttl : Nat) : Mask × DB :=
  match lookupUserObjectPerm s now tid uid oid with
  | some r => (r.base_permissions, s)
  | none =>
    let c := computeObjectPermissions s now tid uid oid
    if c = 0 then
      (0, s)
    else
      let fresh : UserObjectPermRow :=
        { tenant_id := tid, user_id := uid, object_id := oid,
          base_permissions := c, cached_at := now, expires_at := now + ttl }
      (c, { s with user_object_permissions :=
              upsertUserObjectPerm s.user_object_permissions fresh })

/-- The field-restriction lookup of `cache.get_field_permissions`
(`SELECT restriction ... WHERE ... AND expires_at > now()`). -/
def lookupFieldRestriction (s : DB) (now : Time) (tid uid oid fid : Nat) :
    Option UserFieldRestrictionRow :=
  s.user_field_restrictions.find? fun r =>
    decide (r.tenant_id = tid ∧ r.user_id = uid ∧ r.object_id = oid ∧
      r.field_id = fid ∧ now < r.expires_at)

/-- Embedding of `cache.get_field_permissions`: object permissions first, then
AND with the cached field restriction when a live restriction row exists. -/
def get_field_permissions (s : DB) (now : Time) (tid uid oid fid : Nat)
    (ttl : Nat) : Mask × DB :=
  ((match lookupFieldRestriction (get_object_permissions s now tid uid oid ttl).2
        now tid uid oid fid with
    | some r => (get_object_permissions s now tid uid oid ttl).1 &&& r.restriction
    | none => (get_object_permissions s now tid uid oid ttl).1),
   (get_object_permissions s now tid uid oid ttl).2)

/-- The row-cache lookup of `cache.get_row_permissions`. -/
def lookupUserRowPerm (s : DB) (now : Time) (tid uid oid rid : Nat) :
    Option UserRowPermRow :=
  s.user_row_permissions.find? fun r =>
    decide (r.tenant_id = tid ∧ r.user_id = uid ∧ r.object_id = oid ∧
      r.row_id = rid ∧ now < r.expires_at)

/-- Embedding of `INSERT ... ON CONFLICT (tenant_id, user_id, object_id,
row_id) DO UPDATE` for `cache.user_row_permissions`. -/
def upsertUserRowPerm (rows : List UserRowPermRow) (r : UserRowPermRow) :
    List UserRowPermRow :=
  r :: rows.filter fun x =>
    !(decide (x.tenant_id = r.tenant_id ∧ x.user_id = r.user_id ∧
      x.object_id = r.object_id ∧ x.row_id = r.row_id))

/-- Embedding of `cache.get_row_permissions`: return the live row-cache entry
if present; otherwise take the object permissions (no row predicate is
evaluated), cache them under the row key and return them. -/
def get_row_permissions (s : DB) (now : Time) (tid uid oid rid : Nat)
    (ttl : Nat) : Mask × DB :=
  match lookupUserRowPerm s now tid uid oid rid with
  | some r => (r.permissions, s)
  | none =>
    let base := get_object_permissions s now tid uid oid ttl
    let fresh : UserRowPermRow :=
      { tenant_id := tid, user_id := uid, object_id := oid, row_id := rid,
        permissions := base.1, cached_at := now, expires_at := now + ttl }
    (base.1, { base.2 with user_row_permissions :=
                 upsertUserRowPerm base.2.user_row_permissions fresh })

/-- The direct active user members of a group: the subquery of
`cache.invalidate_group_permissions_cache`
(`member_user_id IS NOT NULL AND deleted_at IS NULL`). -/
def directUserMembers (s : DB) (tid gid : Nat) : List Nat :=
  (s.group_member.filter fun gm =>
    decide (gm.tenant_id = tid ∧ gm.group_id = gid ∧
      gm.member_user_id ≠ none ∧ gm.deleted_at = none)).filterMap
    (fun gm => gm.member_user_id)

/-- Embedding of `cache.invalidate_group_permissions_cache(p_tenant_id,
p_group_id)`: delete the group-cache entries of the group and the
object-permission cache entries of its direct active user members. -/
def invalidate_group_permissions_cache (s : DB) (tid gid : Nat) : DB :=
  { s with
    group_object_permissions := s.group_object_permissions.filter fun r =>
      !(decide (r.tenant_id = tid ∧ r.group_id = gid)),
    user_object_permissions := s.user_object_permissions.filter fun r =>
      !(decide (r.tenant_id = tid ∧ r.user_id ∈ directUserMembers s tid gid)) }

/-- Embedding of `cache.send_cache_invalidation_event`: append one outbox row
with empty payload, the tenant id in the headers and default delivery state
(`pending`, `attempt = 0`, `next_attempt_at`/`created_at = now()`). -/
def send_cache_invalidation_event (s : DB) (now : Time) (nextId : Nat)
    (tid : Nat) (aggType : String) (aggId : Nat) (evType : String) : DB :=
  { s with outbox := s.outbox ++
      [{ id := nextId, aggregate_type := aggType, aggregate_id := aggId,
         event_type := evType, headers_tenant_id := some tid,
         status := OutboxStatus.pending, attempt := 0, next_attempt_at := now,
         locked_by := none, locked_at := none, created_at := now,
         published_at := none }] }

/-- Embedding of `cache.trigger_group_cache_invalidation` (the AFTER UPDATE
trigger body on `cluster.group` for the row with id `gid`): invalidate the
group cache and append one outbox event. -/
def trigger_group_cache_invalidation (s : DB) (now : Time) (nextId : Nat)
    (tid gid : Nat) : DB :=
  send_cache_invalidation_event (invalidate_group_permissions_cache s tid gid)
    now nextId tid "group" gid "iam.group_permissions_invalidated"

/-- Seconds per minute, for the `attempt * 2 || ' minutes'` backoff interval
of `bootstrap.mark_event_failed`. -/
def secondsPerMinute : Nat := 60

/-- Embedding of `bootstrap.mark_event_processing(p_id, p_worker_id)` applied
to the targeted row: the conditional update succeeds (returns `true`) exactly
when the row is `pending` and due, and then sets `processing`, increments
`attempt` and takes the lock; otherwise the row is unchanged. -/
def mark_event_processing (r : OutboxRow) (now : Time) (worker : Nat) :
    Bool × OutboxRow :=
  if r.status = OutboxStatus.pending ∧ r.next_attempt_at ≤ now then
    (true, { r with status := OutboxStatus.processing,
                    locked_by := some worker, locked_at := some now,
                    attempt := r.attempt + 1 })
  else
    (false, r)

/-- Embedding of `bootstrap.mark_event_completed(p_id)` applied to the
targeted row. -/
def mark_event_completed (r : OutboxRow) (now : Time) : OutboxRow :=
  { r with status := OutboxStatus.done, published_at := some now,
           locked_by := none, locked_at := none }

/-- Embedding of `bootstrap.mark_event_failed(p_id, p_max_attempts)` applied
to the targeted row: `dead` when `attempt >= p_max_attempts`, else back to
`pending`; in both branches `next_attempt_at := now() + attempt * 2 minutes`
and the lock is cleared. -/
def mark_event_failed (r : OutboxRow) (now : Time) (maxAttempts : Nat) :
    OutboxRow :=
  { r with
    status := if maxAttempts ≤ r.attempt then OutboxStatus.dead
              else OutboxStatus.pending,
    next_attempt_at := now + r.attempt * 2 * secondsPerMinute,
    locked_by := none, locked_at := none }

/-- Embedding of `bootstrap.get_events_ready_for_processing(p_limit)`:
`pending` rows with `next_attempt_at <= now()`, ordered by `created_at`,
limited to `p_limit`. -/
def get_events_ready_for_processing (rows : List OutboxRow) (now : Time)
    (limit : Nat) : List OutboxRow :=
  (((rows.filter fun r =>
      decide (r.status = OutboxStatus.pending ∧ r.next_attempt_at ≤ now)).mergeSort
      fun a b => a.created_at ≤ b.created_at).take limit)

/-- Does the optional nested-group member belong to the accumulated group
set? -/
def memberGroupIn (acc : List Nat) (o : Option Nat) : Bool :=
  match o with
  | some h => decide (h ∈ acc)
  | none => false

/-- Modelled from the spec (Membership Resolver): one breadth-first step of the
group-in-group closure — the groups not yet in `acc` that have an active
membership edge whose member is a group already in `acc`. -/
def nestedStep (s : DB) (tid : Nat) (acc : List Nat) : List Nat :=
  (((s.group_member.filter fun gm =>
      decide (gm.tenant_id = tid ∧ gm.deleted_at = none) &&
        memberGroupIn acc gm.member_group_id).map
    (fun gm => gm.group_id)).filter fun g => !(decide (g ∈ acc))).dedup

/-- Modelled from the spec (Membership Resolver): breadth-first closure over
group-in-group memberships, deduplicated, stopping at the depth bound. -/
def resolveGroupsAux (s : DB) (tid : Nat) : Nat → List Nat → List Nat
  | 0, acc => acc
  | d + 1, acc => resolveGroupsAux s tid d (acc ++ nestedStep s tid acc)

/-- Modelled from the spec (Membership Resolver, §4.2): the closed set of
groups granting permissions to a principal — the groups of its directly
recorded active memberships, closed transitively over group-in-group edges
up to the depth bound. (The role/territory-derived memberships of the spec
have no counterpart in the repository's read path and are not modelled.) -/
def specResolveGroups (s : DB) (tid uid depth : Nat) : List Nat :=
  resolveGroupsAux s tid depth
    ((directActiveMemberships s tid uid).map (fun gm => gm.group_id)).dedup

/-- Is the permission set reachable through the resolved group set: alive and
bound to a group of the set? -/
def psReachable (s : DB) (tid uid depth psid : Nat) : Bool :=
  s.permission_set.any fun ps =>
    decide (ps.id = psid ∧ ps.tenant_id = tid ∧ ps.deleted_at = none) &&
      memberGroupIn (specResolveGroups s tid uid depth) ps.group_id

/-- Modelled from the spec (Permission Aggregator, §4.3):
`effectiveObjectPermissions(tenant, principal, object)` = bitwise OR over all
PermissionSets reachable through the Membership Resolver's group set that
have an ObjectPermission row for that object. -/
def specEffectiveObjectPermissions (s : DB) (tid uid oid depth : Nat) : Mask :=
  ((s.object_permissions.filter fun op =>
      decide (op.tenant_id = tid ∧ op.object_id = oid) &&
        psReachable s tid uid depth op.permission_set_id).map
    (fun op => op.permissions)).foldr (fun x y => x ||| y) 0

/-- The partial unique index `ux_permission_set_api_name_alive` as declared in
migration 000004: `ON security.permission_set (api_name) WHERE deleted_at IS
NULL` — no two alive rows may share an `api_name`, regardless of tenant. -/
def ux_permission_set_api_name_alive (rows : List PermissionSetRow) : Prop :=
  rows.Pairwise fun a b =>
    a.deleted_at = none → b.deleted_at = none → a.api_name ≠ b.api_name

/-- Modelled from the spec (and from the comment above the index in the
source): `api_name` must be unique within a tenant among alive permission
sets — rows of distinct tenants may coincide. -/
def apiNameUniquePerTenant (rows : List PermissionSetRow) : Prop :=
  rows.Pairwise fun a b =>
    a.deleted_at = none → b.deleted_at = none → a.tenant_id = b.tenant_id →
      a.api_name ≠ b.api_name

/-- Write-through consistency of the user-level object-permission cache for
one key: every live cached row for the key holds exactly the mask the read
path would recompute from the current membership and group-cache data. -/
def userCacheConsistent (s : DB) (now : Time) (tid uid oid : Nat) : Prop :=
  ∀ r ∈ s.user_object_permissions,
    r.tenant_id = tid → r.user_id = uid → r.object_id = oid →
    now < r.expires_at →
    r.base_permissions = computeObjectPermissions s now tid uid oid

/- Helper lemmas. -/

/-- A bit is set in the OR-fold of a list exactly when some element sets it. -/
theorem testBit_foldr_lor (l : List Nat) (m : Nat) :
    (l.foldr (fun x y => x ||| y) 0).testBit m = true ↔
      ∃ x ∈ l, x.testBit m = true := by
  induction l with
  | nil => simp
  | cons a l ih =>
    simp only [List.foldr_cons, Nat.testBit_lor, Bool.or_eq_true, ih,
      List.mem_cons]
    constructor
    · rintro (h | ⟨x, hx, hb⟩)
      · exact ⟨a, Or.inl rfl, h⟩
      · exact ⟨x, Or.inr hx, hb⟩
    · rintro ⟨x, hx | hx, hb⟩
      · exact Or.inl (hx ▸ hb)
      · exact Or.inr ⟨x, hx, hb⟩

/-- The read path never touches the membership table. -/
theorem get_object_permissions_group_member (s : DB) (now : Time)
    (tid uid oid ttl : Nat) :
    ((get_object_permissions s now tid uid oid ttl).2).group_member =
      s.group_member := by
  unfold get_object_permissions
  cases lookupUserObjectPerm s now tid uid oid <;> simp
  split <;> simp

/-- The read path never touches the group-level cache. -/
theorem get_object_permissions_group_cache (s : DB) (now : Time)
    (tid uid oid ttl : Nat) :
    ((get_object_permissions s now tid uid oid ttl).2).group_object_permissions
      = s.group_object_permissions := by
  unfold get_object_permissions
  cases lookupUserObjectPerm s now tid uid oid <;> simp
  split <;> simp

/-- The read path never touches the field-restriction cache. -/
theorem get_object_permissions_field_restrictions (s : DB) (now : Time)
    (tid uid oid ttl : Nat) :
    ((get_object_permissions s now tid uid oid ttl).2).user_field_restrictions
      = s.user_field_restrictions := by
  unfold get_object_permissions
  cases lookupUserObjectPerm s now tid uid oid <;> simp
  split <;> simp

/-- The recomputed mask only depends on the membership table and the
group-level cache. -/
theorem computeObjectPermissions_congr {s₁ s₂ : DB} (now : Time)
    (tid uid oid : Nat) (hm : s₁.group_member = s₂.group_member)
    (hg : s₁.group_object_permissions = s₂.group_object_permissions) :
    computeObjectPermissions s₁ now tid uid oid =
      computeObjectPermissions s₂ now tid uid oid := by
  unfold computeObjectPermissions directActiveMemberships liveGroupEntries
  rw [hm, hg]

/-- Bitwise AND with a mask yields a submask: absorbing the base again
changes nothing. -/
theorem land_land_self (b r : Nat) : (b &&& r) &&& b = b &&& r := by
  apply Nat.eq_of_testBit_eq
  intro i
  simp only [Nat.testBit_land]
  cases b.testBit i <;> cases r.testBit i <;> rfl

/-- Bitwise AND is idempotent. -/
theorem land_self_eq (b : Nat) : b &&& b = b := by
  apply Nat.eq_of_testBit_eq
  intro i
  simp only [Nat.testBit_land]
  cases b.testBit i <;> rfl

/-- A database with no rows, used to instantiate hypothesised theorems. -/
def DB0 : DB :=
  { group_member := [], group_object_permissions := [],
    user_object_permissions := [], user_field_restrictions := [],
    user_row_permissions := [], permission_set := [],
    object_permissions := [], outbox := [] }

/-- C5: if the principal has no active direct group memberships (and hence no
reachable grant covers the object) and no live cached entry exists for the
key, the object-permission read returns the bitmask `0` and leaves the state
untouched; the embedded read path is a total function, so no error is ever
signalled — absence of any grant is indistinguishable from zero permission at
the caller. -/
theorem C5_deny_by_default (s : DB) (now : Time) (tid uid oid ttl : Nat)
    (hmem : directActiveMemberships s tid uid = [])
    (hmiss : lookupUserObjectPerm s now tid uid oid = none) :
    get_object_permissions s now tid uid oid ttl = (0, s) := by
  have hc : computeObjectPermissions s now tid uid oid = 0 := by
    unfold computeObjectPermissions
    rw [hmem]
    rfl
  unfold get_object_permissions
  rw [hmiss]
  simp [hc]

/-- Witness for C5 at a concrete empty database. -/
theorem C5_deny_by_default_witness :
    get_object_permissions DB0 10 1 7 100 3600 = (0, DB0) :=
  C5_deny_by_default DB0 10 1 7 100 3600 rfl rfl

/-- C10: on a cache miss, a computed bitmask of `0` is returned without
writing any cache entry — the state is returned unchanged, so an absent grant
is never memoized — while a non-zero computed bitmask is stored under the key
with `cached_at = now` and `expires_at = now + ttl` (and returned). -/
theorem C10_zero_never_cached (s : DB) (now : Time) (tid uid oid ttl : Nat)
    (hmiss : lookupUserObjectPerm s now tid uid oid = none) :
    (computeObjectPermissions s now tid uid oid = 0 →
      get_object_permissions s now tid uid oid ttl = (0, s)) ∧
    (computeObjectPermissions s now tid uid oid ≠ 0 →
      get_object_permissions s now tid uid oid ttl =
        (computeObjectPermissions s now tid uid oid,
         { s with
             user_object_permissions := upsertUserObjectPerm
               s.user_object_permissions
               (⟨tid, uid, oid, computeObjectPermissions s now tid uid oid,
                 now, now + ttl⟩ : UserObjectPermRow) })) := by
  constructor
  · intro h0
    unfold get_object_permissions
    rw [hmiss]
    simp [h0]
  · intro hne
    unfold get_object_permissions
    rw [hmiss]
    simp [hne]

/-- Witness for C10 at a concrete database: one live group-cache grant, so the
computed mask is non-zero and gets cached; and the empty database, where the
computed mask is zero and the state is unchanged. -/
theorem C10_zero_never_cached_witness :
    get_object_permissions DB0 10 1 7 100 3600 = (0, DB0) :=
  (C10_zero_never_cached DB0 10 1 7 100 3600 rfl).1 rfl

/-- C8: on a row-cache miss the row-level permission read degrades to the
object-level read — the returned bitmask equals the effective object
permission bitmask for the same tenant, principal and object, with no
row-predicate evaluation. -/
theorem C8_row_degrades_to_object (s : DB) (now : Time)
    (tid uid oid rid ttl : Nat)
    (hmiss : lookupUserRowPerm s now tid uid oid rid = none) :
    (get_row_permissions s now tid uid oid rid ttl).1 =
      (get_object_permissions s now tid uid oid ttl).1 := by
  unfold get_row_permissions
  rw [hmiss]

/-- Witness for C8 at a concrete empty database. -/
theorem C8_row_degrades_to_object_witness :
    (get_row_permissions DB0 10 1 7 100 55 3600).1 =
      (get_object_permissions DB0 10 1 7 100 3600).1 :=
  C8_row_degrades_to_object DB0 10 1 7 100 55 3600 rfl

/-- C4: the effective field permission bitmask equals the effective object
bitmask ANDed with the cached field restriction when a live restriction row
exists, and equals the object bitmask otherwise; in both cases it is a
bitwise subset of the object bitmask — a field can only narrow, never widen,
object-level access. -/
theorem C4_field_narrows_object (s : DB) (now : Time)
    (tid uid oid fid ttl : Nat) :
    ((get_field_permissions s now tid uid oid fid ttl).1 =
      match lookupFieldRestriction s now tid uid oid fid with
      | some r => (get_object_permissions s now tid uid oid ttl).1 &&&
          r.restriction
      | none => (get_object_permissions s now tid uid oid ttl).1) ∧
    (get_field_permissions s now tid uid oid fid ttl).1 &&&
        (get_object_permissions s now tid uid oid ttl).1 =
      (get_field_permissions s now tid uid oid fid ttl).1 := by
  have hframe :
      lookupFieldRestriction (get_object_permissions s now tid uid oid ttl).2
        now tid uid oid fid = lookupFieldRestriction s now tid uid oid fid := by
    unfold lookupFieldRestriction
    rw [get_object_permissions_field_restrictions]
  unfold get_field_permissions
  rw [hframe]
  cases lookupFieldRestriction s now tid uid oid fid with
  | none => exact ⟨rfl, land_self_eq _⟩
  | some r => exact ⟨rfl, land_land_self _ _⟩


/-- C9: the source contradicts the tenant-partitioned uniqueness requirement
(and the comment directly above its own index): two alive permission sets of
distinct tenants sharing an `api_name` satisfy per-tenant uniqueness, yet
violate `ux_permission_set_api_name_alive` as declared on `(api_name)` alone. -/
theorem C9_api_name_index_not_tenant_scoped :
    apiNameUniquePerTenant
        [{ id := 1, tenant_id := 1, group_id := none,
           api_name := "admin_permissions", deleted_at := none },
         { id := 2, tenant_id := 2, group_id := none,
           api_name := "admin_permissions", deleted_at := none }] ∧
      ¬ ux_permission_set_api_name_alive
        [{ id := 1, tenant_id := 1, group_id := none,
           api_name := "admin_permissions", deleted_at := none },
         { id := 2, tenant_id := 2, group_id := none,
           api_name := "admin_permissions", deleted_at := none }] := by
  constructor
  · unfold apiNameUniquePerTenant
    decide
  · unfold ux_permission_set_api_name_alive
    decide

/-- C3: the outbox claim succeeds exactly on a due pending row; a successful
claim sets `processing`, increments `attempt` and takes the lock; a row
already claimed can never be claimed again, so of two successive claim
attempts on the same row at most the first succeeds; and the candidate batch
consists only of due pending rows, ordered oldest-created-first, bounded by
the limit. -/
theorem C3_claim_exactly_once :
    (∀ (r : OutboxRow) (now : Time) (w : Nat),
       (mark_event_processing r now w).1 = true ↔
         r.status = OutboxStatus.pending ∧ r.next_attempt_at ≤ now) ∧
    (∀ (r : OutboxRow) (now : Time) (w : Nat),
       r.status = OutboxStatus.pending → r.next_attempt_at ≤ now →
         (mark_event_processing r now w).2 =
           { r with
               status := OutboxStatus.processing, attempt := r.attempt + 1,
               locked_by := some w, locked_at := some now }) ∧
    (∀ (r : OutboxRow) (now now₂ : Time) (w w₂ : Nat),
       (mark_event_processing r now w).1 = true →
         (mark_event_processing (mark_event_processing r now w).2 now₂ w₂).1
           = false) ∧
    (∀ (rows : List OutboxRow) (now : Time) (lim : Nat),
       (get_events_ready_for_processing rows now lim).length ≤ lim ∧
       (∀ r ∈ get_events_ready_for_processing rows now lim,
          r ∈ rows ∧ r.status = OutboxStatus.pending ∧
            r.next_attempt_at ≤ now) ∧
       (get_events_ready_for_processing rows now lim).Pairwise
         (fun a b => a.created_at ≤ b.created_at)) := by
  refine ⟨?_, ?_, ?_, ?_⟩
  · intro r now w
    unfold mark_event_processing
    by_cases hc : r.status = OutboxStatus.pending ∧ r.next_attempt_at ≤ now
    · rw [if_pos hc]
      simpa using hc
    · rw [if_neg hc]
      simpa using hc
  · intro r now w h1 h2
    unfold mark_event_processing
    rw [if_pos ⟨h1, h2⟩]
  · intro r now now₂ w w₂ h
    by_cases hc : r.status = OutboxStatus.pending ∧ r.next_attempt_at ≤ now
    · unfold mark_event_processing
      rw [if_pos hc, if_neg]
      rintro ⟨hp, _⟩
      exact OutboxStatus.noConfusion hp
    · unfold mark_event_processing at h
      rw [if_neg hc] at h
      exact Bool.noConfusion h
  · intro rows now lim
    refine ⟨?_, ?_, ?_⟩
    · unfold get_events_ready_for_processing
      apply List.length_take_le
    · intro r hr
      unfold get_events_ready_for_processing at hr
      have hms := List.mem_mergeSort.mp (List.mem_of_mem_take hr)
      have := List.mem_filter.mp hms
      exact ⟨this.1, of_decide_eq_true this.2⟩
    · unfold get_events_ready_for_processing
      apply List.Pairwise.sublist (List.take_sublist _ _)
      have hs := @List.sorted_mergeSort OutboxRow
        (fun a b : OutboxRow => decide (a.created_at ≤ b.created_at))
        (fun a b c h₁ h₂ => by
          simp only [decide_eq_true_eq] at h₁ h₂ ⊢
          exact le_trans h₁ h₂)
        (fun a b => by
          rcases le_total a.created_at b.created_at with h | h
          · simp [h]
          · simp [h])
        (rows.filter fun r =>
          decide (r.status = OutboxStatus.pending ∧ r.next_attempt_at ≤ now))
      exact hs.imp (fun h => by simpa using h)

/-- A sample fresh outbox row (`pending`, `attempt = 0`, due immediately). -/
def sampleOutboxRow : OutboxRow :=
  { id := 1, aggregate_type := "group", aggregate_id := 5,
    event_type := "iam.group_permissions_invalidated",
    headers_tenant_id := some 1, status := OutboxStatus.pending, attempt := 0,
    next_attempt_at := 0, locked_by := none, locked_at := none,
    created_at := 0, published_at := none }

/-- Witness for C3: on a concrete due pending row the first claim succeeds
and the immediately following claim on the resulting row fails. -/
theorem C3_claim_exactly_once_witness :
    (mark_event_processing sampleOutboxRow 10 1).1 = true ∧
    (mark_event_processing (mark_event_processing sampleOutboxRow 10 1).2
        11 2).1 = false :=
  ⟨(C3_claim_exactly_once.1 sampleOutboxRow 10 1).mpr ⟨rfl, by decide⟩,
   C3_claim_exactly_once.2.2.1 sampleOutboxRow 10 11 1 2
     ((C3_claim_exactly_once.1 sampleOutboxRow 10 1).mpr ⟨rfl, by decide⟩)⟩

/-- A successful claim: on a due pending row `mark_event_processing` returns
`true` and the updated row. -/
theorem mark_event_processing_pos (r : OutboxRow) (now : Time) (w : Nat)
    (h1 : r.status = OutboxStatus.pending) (h2 : r.next_attempt_at ≤ now) :
    mark_event_processing r now w =
      (true,
       { r with
           status := OutboxStatus.processing, attempt := r.attempt + 1,
           locked_by := some w, locked_at := some now }) := by
  unfold mark_event_processing
  rw [if_pos ⟨h1, h2⟩]

/-- A failed claim: on a row that is not pending, `mark_event_processing`
returns `false` and leaves the row unchanged. -/
theorem mark_event_processing_neg (r : OutboxRow) (now : Time) (w : Nat)
    (h : r.status ≠ OutboxStatus.pending) :
    mark_event_processing r now w = (false, r) := by
  unfold mark_event_processing
  rw [if_neg]
  rintro ⟨hp, _⟩
  exact h hp

/-- One delivery round on a row: a worker attempts to claim it and, when the
claim succeeds, the delivery fails and is acknowledged through
`bootstrap.mark_event_failed`; when the claim fails the row is untouched. -/
def claimFailCycle (maxAttempts : Nat) (t : Time) (r : OutboxRow) :
    OutboxRow :=
  match mark_event_processing r t 0 with
  | (true, r₂) => mark_event_failed r₂ t maxAttempts
  | (false, _) => r

/-- Round times spaced far enough apart that every backoff interval written by
`mark_event_failed` has elapsed by the next round. -/
def failureTime (t0 maxAttempts i : Nat) : Time :=
  t0 + i * (2 * maxAttempts * secondsPerMinute + 1)

/-- The row after `k` delivery rounds that all fail. -/
def runFailures (maxAttempts t0 : Nat) (r : OutboxRow) : Nat → OutboxRow
  | 0 => r
  | k + 1 =>
    claimFailCycle maxAttempts (failureTime t0 maxAttempts k)
      (runFailures maxAttempts t0 r k)

/-- A failing round on a due pending row: the claim succeeds, the failure is
acknowledged, the attempt counter grows by one, the backoff is written and
the row dies exactly when the counter reaches the bound. -/
theorem claimFailCycle_pos (maxA : Nat) (t : Time) (r : OutboxRow)
    (h1 : r.status = OutboxStatus.pending) (h2 : r.next_attempt_at ≤ t) :
    claimFailCycle maxA t r =
      { r with
          status := if maxA ≤ r.attempt + 1 then OutboxStatus.dead
            else OutboxStatus.pending,
          attempt := r.attempt + 1,
          next_attempt_at := t + (r.attempt + 1) * 2 * secondsPerMinute,
          locked_by := none, locked_at := none } := by
  unfold claimFailCycle
  rw [mark_event_processing_pos _ _ _ h1 h2]
  rfl

/-- Invariant of the failing-delivery loop: after `k ≤ max_attempts` failed
rounds the attempt counter is `k`, the next retry is due by the next round
time, and the row is `pending` before round `max_attempts` and `dead` exactly
at it. -/
theorem runFailures_inv (maxA t0 : Nat) (hmax : 0 < maxA) (r0 : OutboxRow)
    (h0 : r0.status = OutboxStatus.pending) (ha : r0.attempt = 0)
    (hd : r0.next_attempt_at ≤ t0) :
    ∀ k, k ≤ maxA →
      (runFailures maxA t0 r0 k).attempt = k ∧
      (runFailures maxA t0 r0 k).next_attempt_at ≤ failureTime t0 maxA k ∧
      (runFailures maxA t0 r0 k).status =
        (if k = maxA then OutboxStatus.dead else OutboxStatus.pending) := by
  intro k
  induction k with
  | zero =>
    intro _
    refine ⟨ha, ?_, ?_⟩
    · show r0.next_attempt_at ≤ failureTime t0 maxA 0
      simpa [failureTime] using hd
    · show r0.status = (if 0 = maxA then OutboxStatus.dead
        else OutboxStatus.pending)
      rw [if_neg (Nat.ne_of_lt hmax)]
      exact h0
  | succ k ih =>
    intro hk1
    have hk : k ≤ maxA := Nat.le_of_succ_le hk1
    obtain ⟨ia, idue, ist⟩ := ih hk
    have hklt : k < maxA := hk1
    have hst : (runFailures maxA t0 r0 k).status = OutboxStatus.pending := by
      rw [ist, if_neg (Nat.ne_of_lt hklt)]
    have hcycle : runFailures maxA t0 r0 (k + 1) =
        { runFailures maxA t0 r0 k with
            status := if maxA ≤ (runFailures maxA t0 r0 k).attempt + 1 then
              OutboxStatus.dead else OutboxStatus.pending,
            attempt := (runFailures maxA t0 r0 k).attempt + 1,
            next_attempt_at := failureTime t0 maxA k +
              ((runFailures maxA t0 r0 k).attempt + 1) * 2 * secondsPerMinute,
            locked_by := none, locked_at := none } := by
      show claimFailCycle maxA (failureTime t0 maxA k)
          (runFailures maxA t0 r0 k) = _
      exact claimFailCycle_pos _ _ _ hst idue
    rw [hcycle]
    refine ⟨by simp [ia], ?_, ?_⟩
    · show failureTime t0 maxA k +
          ((runFailures maxA t0 r0 k).attempt + 1) * 2 * secondsPerMinute ≤
        failureTime t0 maxA (k + 1)
      rw [ia]
      unfold failureTime
      have hle : (k + 1) * 2 * secondsPerMinute ≤
          2 * maxA * secondsPerMinute + 1 := by
        have h120 : (k + 1) * 2 * secondsPerMinute ≤
            maxA * 2 * secondsPerMinute :=
          Nat.mul_le_mul_right _ (Nat.mul_le_mul_right _ hk1)
        have hcomm : maxA * 2 * secondsPerMinute =
            2 * maxA * secondsPerMinute := by ring
        omega
      calc t0 + k * (2 * maxA * secondsPerMinute + 1) +
            (k + 1) * 2 * secondsPerMinute
          ≤ t0 + k * (2 * maxA * secondsPerMinute + 1) +
            (2 * maxA * secondsPerMinute + 1) := Nat.add_le_add_left hle _
        _ = t0 + (k + 1) * (2 * maxA * secondsPerMinute + 1) := by ring
    · show (if maxA ≤ (runFailures maxA t0 r0 k).attempt + 1 then
          OutboxStatus.dead else OutboxStatus.pending) =
        (if k + 1 = maxA then OutboxStatus.dead else OutboxStatus.pending)
      rw [ia]
      by_cases he : k + 1 = maxA
      · rw [if_pos (by omega), if_pos he]
      · rw [if_neg (by omega), if_neg he]

/-- A dead row is never claimed, so a failing round leaves it unchanged. -/
theorem claimFailCycle_dead (maxA : Nat) (t : Time) (r : OutboxRow)
    (h : r.status = OutboxStatus.dead) : claimFailCycle maxA t r = r := by
  unfold claimFailCycle
  rw [mark_event_processing_neg _ _ _ (by rw [h]; exact fun hc => OutboxStatus.noConfusion hc)]

/-- C2: starting from a fresh row, repeated delivery failures leave the row
`pending` with attempt counter `k` after every round `k < max_attempts`,
drive it to `dead` with counter `max_attempts` exactly at round
`max_attempts`, and every later round leaves the dead row completely
unchanged (in particular `next_attempt_at` no longer advances); moreover a
dead row can never be claimed, so no further delivery attempt is ever
scheduled. -/
theorem C2_outbox_termination (maxA t0 : Nat) (hmax : 0 < maxA)
    (r0 : OutboxRow) (h0 : r0.status = OutboxStatus.pending)
    (ha : r0.attempt = 0) (hd : r0.next_attempt_at ≤ t0) :
    (∀ k, k < maxA →
       (runFailures maxA t0 r0 k).status = OutboxStatus.pending ∧
       (runFailures maxA t0 r0 k).attempt = k) ∧
    (runFailures maxA t0 r0 maxA).status = OutboxStatus.dead ∧
    (runFailures maxA t0 r0 maxA).attempt = maxA ∧
    (∀ j, runFailures maxA t0 r0 (maxA + j) = runFailures maxA t0 r0 maxA) ∧
    (∀ (r : OutboxRow) (t : Time) (w : Nat),
       r.status = OutboxStatus.dead →
         mark_event_processing r t w = (false, r)) := by
  have hinv := runFailures_inv maxA t0 hmax r0 h0 ha hd
  have hdead : (runFailures maxA t0 r0 maxA).status = OutboxStatus.dead := by
    have := (hinv maxA le_rfl).2.2
    rwa [if_pos rfl] at this
  refine ⟨?_, hdead, (hinv maxA le_rfl).1, ?_, ?_⟩
  · intro k hk
    obtain ⟨ia, _, ist⟩ := hinv k (Nat.le_of_lt hk)
    exact ⟨by rwa [if_neg (Nat.ne_of_lt hk)] at ist, ia⟩
  · intro j
    induction j with
    | zero => rfl
    | succ j ihj =>
      have : maxA + (j + 1) = (maxA + j) + 1 := rfl
      rw [this]
      show claimFailCycle maxA _ (runFailures maxA t0 r0 (maxA + j)) = _
      rw [ihj, claimFailCycle_dead _ _ _ hdead]
  · intro r t w h
    exact mark_event_processing_neg r t w
      (by rw [h]; exact fun hc => OutboxStatus.noConfusion hc)

/-- Witness for C2 with `max_attempts = 5` on a concrete fresh row: rounds 1
through 4 leave it pending, the 5th failure kills it, and a 6th round changes
nothing. -/
theorem C2_outbox_termination_witness :
    (runFailures 5 0 sampleOutboxRow 4).status = OutboxStatus.pending ∧
    (runFailures 5 0 sampleOutboxRow 5).status = OutboxStatus.dead ∧
    (runFailures 5 0 sampleOutboxRow 5).attempt = 5 ∧
    runFailures 5 0 sampleOutboxRow 6 = runFailures 5 0 sampleOutboxRow 5 :=
  ⟨((C2_outbox_termination 5 0 (by decide) sampleOutboxRow rfl rfl
      (by decide)).1 4 (by decide)).1,
   (C2_outbox_termination 5 0 (by decide) sampleOutboxRow rfl rfl
      (by decide)).2.1,
   (C2_outbox_termination 5 0 (by decide) sampleOutboxRow rfl rfl
      (by decide)).2.2.1,
   (C2_outbox_termination 5 0 (by decide) sampleOutboxRow rfl rfl
      (by decide)).2.2.2.1 1⟩

/-- Under write-through consistency the read path returns the recomputed
mask, whether it hits or misses. -/
theorem get_object_permissions_consistent_fst (s : DB) (now : Time)
    (tid uid oid ttl : Nat) (hcons : userCacheConsistent s now tid uid oid) :
    (get_object_permissions s now tid uid oid ttl).1 =
      computeObjectPermissions s now tid uid oid := by
  unfold get_object_permissions
  cases h : lookupUserObjectPerm s now tid uid oid with
  | some r =>
    have hmem : r ∈ s.user_object_permissions :=
      List.mem_of_find?_eq_some h
    have hpred := List.find?_some h
    rw [decide_eq_true_eq] at hpred
    exact hcons r hmem hpred.1 hpred.2.1 hpred.2.2.1 hpred.2.2.2
  | none =>
    by_cases h0 : computeObjectPermissions s now tid uid oid = 0
    · simp [h0]
    · simp [h0]

/-- The read path preserves write-through consistency: the only row it ever
writes holds exactly the recomputed mask. -/
theorem get_object_permissions_consistent_snd (s : DB) (now : Time)
    (tid uid oid ttl : Nat) (hcons : userCacheConsistent s now tid uid oid) :
    userCacheConsistent (get_object_permissions s now tid uid oid ttl).2 now
      tid uid oid := by
  cases h : lookupUserObjectPerm s now tid uid oid with
  | some r =>
    have hstate : (get_object_permissions s now tid uid oid ttl).2 = s := by
      unfold get_object_permissions
      rw [h]
    rw [hstate]
    exact hcons
  | none =>
    by_cases h0 : computeObjectPermissions s now tid uid oid = 0
    · have hstate : (get_object_permissions s now tid uid oid ttl).2 = s := by
        unfold get_object_permissions
        rw [h]
        simp [h0]
      rw [hstate]
      exact hcons
    · have hstate : (get_object_permissions s now tid uid oid ttl).2 =
          { s with
              user_object_permissions := upsertUserObjectPerm
                s.user_object_permissions
                (⟨tid, uid, oid, computeObjectPermissions s now tid uid oid,
                  now, now + ttl⟩ : UserObjectPermRow) } := by
        unfold get_object_permissions
        rw [h]
        simp [h0]
      rw [hstate]
      intro r hr ht hu ho _
      have hcomp :
          computeObjectPermissions
              { s with
                  user_object_permissions := upsertUserObjectPerm
                    s.user_object_permissions
                    (⟨tid, uid, oid, computeObjectPermissions s now tid uid oid,
                      now, now + ttl⟩ : UserObjectPermRow) } now tid uid oid =
            computeObjectPermissions s now tid uid oid :=
        computeObjectPermissions_congr now tid uid oid rfl rfl
      rw [hcomp]
      have hr₂ : r ∈ upsertUserObjectPerm s.user_object_permissions
          (⟨tid, uid, oid, computeObjectPermissions s now tid uid oid,
            now, now + ttl⟩ : UserObjectPermRow) := hr
      unfold upsertUserObjectPerm at hr₂
      rcases List.mem_cons.mp hr₂ with heq | htail
      · rw [heq]
      · have hkeep := (List.mem_filter.mp htail).2
        rw [Bool.not_eq_eq_eq_not, Bool.not_true, decide_eq_false_iff_not]
          at hkeep
        exact absurd ⟨ht, hu, ho⟩ hkeep

/-- A state with one direct membership and one live group-cache grant, and an
empty user-level cache. -/
def C6dbEmpty : DB :=
  { DB0 with
      group_member := [⟨1, 10, some 7, none, none⟩],
      group_object_permissions := [⟨1, 10, 100, 7, 0, 1000⟩] }

/-- The same grant and membership data, but with a user-level cache entry
holding the mask `5`, which disagrees with the recomputed mask `7`. -/
def C6dbPoisoned : DB :=
  { C6dbEmpty with user_object_permissions := [⟨1, 7, 100, 5, 0, 1000⟩] }

/-- The same grant and membership data with a consistent user-level cache
entry. -/
def C6dbConsistent : DB :=
  { C6dbEmpty with user_object_permissions := [⟨1, 7, 100, 7, 0, 1000⟩] }

/-- Counterexample to C6 as stated: for fixed grant and membership data the
returned bitmask does depend on the cache state at call time — a populated
live cache entry overrides the group data, so the call on the populated state
returns `5` while the call on the empty-cache state returns `7`. -/
theorem C6_cache_dependence_counterexample :
    C6dbPoisoned.group_member = C6dbEmpty.group_member ∧
    C6dbPoisoned.group_object_permissions =
      C6dbEmpty.group_object_permissions ∧
    (get_object_permissions C6dbPoisoned 10 1 7 100 3600).1 = 5 ∧
    (get_object_permissions C6dbEmpty 10 1 7 100 3600).1 = 7 :=
  ⟨rfl, rfl, rfl, rfl⟩

/-- C6 amended: determinism holds exactly under write-through consistency —
whenever every live user-cache entry for the key agrees with the mask
recomputed from the (fixed) membership and group-cache data, the read returns
that recomputed mask, preserves consistency, and a second call on the
resulting state returns the same bitmask; an externally written disagreeing
cache entry (see the counterexample) breaks call-order independence. -/
theorem C6_determinism_under_write_through (s : DB) (now : Time)
    (tid uid oid ttl : Nat) (hcons : userCacheConsistent s now tid uid oid) :
    (get_object_permissions s now tid uid oid ttl).1 =
      computeObjectPermissions s now tid uid oid ∧
    userCacheConsistent (get_object_permissions s now tid uid oid ttl).2 now
      tid uid oid ∧
    (get_object_permissions (get_object_permissions s now tid uid oid ttl).2
        now tid uid oid ttl).1 =
      (get_object_permissions s now tid uid oid ttl).1 := by
  have h1 := get_object_permissions_consistent_fst s now tid uid oid ttl hcons
  have h2 := get_object_permissions_consistent_snd s now tid uid oid ttl hcons
  refine ⟨h1, h2, ?_⟩
  have h3 := get_object_permissions_consistent_fst _ now tid uid oid ttl h2
  rw [h3, h1]
  exact computeObjectPermissions_congr now tid uid oid
    (get_object_permissions_group_member s now tid uid oid ttl)
    (get_object_permissions_group_cache s now tid uid oid ttl)

/-- Witness for C6 amended on a concrete consistent state: the call returns
the recomputed mask `7` and a repeated call agrees. -/
theorem C6_determinism_under_write_through_witness :
    (get_object_permissions C6dbConsistent 10 1 7 100 3600).1 =
      computeObjectPermissions C6dbConsistent 10 1 7 100 ∧
    (get_object_permissions
        (get_object_permissions C6dbConsistent 10 1 7 100 3600).2
        10 1 7 100 3600).1 =
      (get_object_permissions C6dbConsistent 10 1 7 100 3600).1 :=
  ⟨(C6_determinism_under_write_through C6dbConsistent 10 1 7 100 3600
      (by
        intro r hr h1 h2 h3 h4
        rw [List.mem_singleton.mp hr]
        rfl)).1,
   (C6_determinism_under_write_through C6dbConsistent 10 1 7 100 3600
      (by
        intro r hr h1 h2 h3 h4
        rw [List.mem_singleton.mp hr]
        rfl)).2.2⟩

/-- A state where user 7 is a member of group 10, group 10 is a nested member
of group 20, and user 7 has a live object-permission cache entry. -/
def C7db : DB :=
  { DB0 with
      group_member := [⟨1, 20, none, some 10, none⟩, ⟨1, 10, some 7, none, none⟩],
      user_object_permissions := [⟨1, 7, 100, 7, 0, 1000⟩] }

/-- Counterexample to C7 as stated: user 7 is resolved as a member of group 20
through the nested group 10 (group 20 is in the breadth-first membership
closure of user 7), yet the invalidation hook fired by a mutation of group 20
leaves user 7's object-permission cache entry in place — only direct user
members are cascaded. -/
theorem C7_nested_member_survives_counterexample :
    20 ∈ specResolveGroups C7db 1 7 10 ∧
    directUserMembers C7db 1 20 = [] ∧
    (trigger_group_cache_invalidation C7db 50 9 1 20).user_object_permissions
      = [⟨1, 7, 100, 7, 0, 1000⟩] :=
  ⟨by decide, rfl, rfl⟩

/-- C7 amended: the invalidation hook on a group mutation deletes the group's
group-level cache entries and the object-permission cache entries of the
group's direct active user members (members reached only through nested
groups are not cascaded), and appends exactly one outbox event of type
`iam.group_permissions_invalidated` carrying the tenant id in its headers. -/
theorem C7_group_invalidation_hook (s : DB) (now : Time) (nid tid gid : Nat) :
    (∀ r ∈ (trigger_group_cache_invalidation s now nid tid
        gid).group_object_permissions,
       ¬(r.tenant_id = tid ∧ r.group_id = gid)) ∧
    (∀ r ∈ (trigger_group_cache_invalidation s now nid tid
        gid).user_object_permissions,
       ¬(r.tenant_id = tid ∧ r.user_id ∈ directUserMembers s tid gid)) ∧
    (trigger_group_cache_invalidation s now nid tid gid).outbox =
      s.outbox ++
        [⟨nid, "group", gid, "iam.group_permissions_invalidated", some tid,
          OutboxStatus.pending, 0, now, none, none, now, none⟩] := by
  refine ⟨?_, ?_, ?_⟩
  · intro r hr
    have hr₂ : r ∈ (invalidate_group_permissions_cache s tid
        gid).group_object_permissions := hr
    unfold invalidate_group_permissions_cache at hr₂
    have hkeep := (List.mem_filter.mp hr₂).2
    rw [Bool.not_eq_eq_eq_not, Bool.not_true, decide_eq_false_iff_not] at hkeep
    exact hkeep
  · intro r hr
    have hr₂ : r ∈ (invalidate_group_permissions_cache s tid
        gid).user_object_permissions := hr
    unfold invalidate_group_permissions_cache at hr₂
    have hkeep := (List.mem_filter.mp hr₂).2
    rw [Bool.not_eq_eq_eq_not, Bool.not_true, decide_eq_false_iff_not] at hkeep
    exact hkeep
  · rfl

/-- Witness for C7 amended: the surviving cache entry of the counterexample
state is consistent with the amended statement, because user 7 is not a
direct member of group 20. -/
theorem C7_group_invalidation_hook_witness :
    ¬((⟨1, 7, 100, 7, 0, 1000⟩ : UserObjectPermRow).tenant_id = 1 ∧
      (⟨1, 7, 100, 7, 0, 1000⟩ : UserObjectPermRow).user_id ∈
        directUserMembers C7db 1 20) :=
  (C7_group_invalidation_hook C7db 50 9 1 20).2.1
    ⟨1, 7, 100, 7, 0, 1000⟩ (by decide)

/-- The membership data of C7db with the grants recorded in the authoritative
tables:
permission set 5 is bound to group 20 and grants mask `4` on object 100, and
the group-level cache for group 20 is populated accordingly. -/
def C1db : DB :=
  { DB0 with
      group_member := [⟨1, 20, none, some 10, none⟩, ⟨1, 10, some 7, none, none⟩],
      group_object_permissions := [⟨1, 20, 100, 4, 0, 1000⟩],
      permission_set := [⟨5, 1, some 20, "sales_permissions", none⟩],
      object_permissions := [⟨1, 5, 100, 4⟩] }

/-- A state with a direct membership and a live group-cache grant, for the
C1 witness. -/
def C1dbDirect : DB :=
  { DB0 with
      group_member := [⟨1, 10, some 7, none, none⟩],
      group_object_permissions := [⟨1, 10, 100, 7, 0, 1000⟩] }

/-- Counterexample to C1 as stated: user 7 reaches group 20 through nested
group membership, permission set 5 is bound to group 20 and has an
ObjectPermission row with mask `4` for object 100 (so the spec formula gives
`4`), yet the object-permission read path returns `0` — it joins only the
principal's direct memberships against the group cache and never traverses
group-in-group edges. -/
theorem C1_nested_groups_ignored_counterexample :
    specEffectiveObjectPermissions C1db 1 7 100 10 = 4 ∧
    (get_object_permissions C1db 10 1 7 100 3600).1 = 0 := by
  constructor
  · decide
  · rfl

/-- C1 amended: on a cache miss the object-permission read returns exactly the
bitwise OR of the live group-cache entries for the object over the groups of
which the principal is a directly recorded active member; a permission bit is
set in the result exactly when some direct active membership leads to a live
group-cache entry with that bit set — nested group-in-group memberships and
the `security.object_permissions` rows are not consulted by this path. -/
theorem C1_object_read_direct_groups_only (s : DB) (now : Time)
    (tid uid oid ttl : Nat)
    (hmiss : lookupUserObjectPerm s now tid uid oid = none) :
    (get_object_permissions s now tid uid oid ttl).1 =
      computeObjectPermissions s now tid uid oid ∧
    ∀ m, (computeObjectPermissions s now tid uid oid).testBit m = true ↔
      ∃ gm ∈ directActiveMemberships s tid uid,
        ∃ gop ∈ liveGroupEntries s now tid gm.group_id oid,
          gop.base_permissions.testBit m = true := by
  constructor
  · unfold get_object_permissions
    rw [hmiss]
    by_cases h0 : computeObjectPermissions s now tid uid oid = 0
    · simp [h0]
    · simp [h0]
  · intro m
    unfold computeObjectPermissions
    rw [testBit_foldr_lor]
    constructor
    · rintro ⟨x, hx, hb⟩
      rw [List.mem_flatMap] at hx
      obtain ⟨gm, hgm, hxg⟩ := hx
      rw [List.mem_map] at hxg
      obtain ⟨gop, hgop, hge⟩ := hxg
      exact ⟨gm, hgm, gop, hgop, hge ▸ hb⟩
    · rintro ⟨gm, hgm, gop, hgop, hb⟩
      exact ⟨gop.base_permissions,
        List.mem_flatMap.mpr ⟨gm, hgm, List.mem_map.mpr ⟨gop, hgop, rfl⟩⟩, hb⟩

/-- Witness for C1 amended on a concrete state: the miss returns the OR of
the direct live group-cache grants (`7`), and bit 0 is set exactly per the
characterization. -/
theorem C1_object_read_direct_groups_only_witness :
    (get_object_permissions C1dbDirect 10 1 7 100 3600).1 =
      computeObjectPermissions C1dbDirect 10 1 7 100 :=
  (C1_object_read_direct_groups_only C1dbDirect 10 1 7 100 3600 rfl).1

end MetaCRM
